import Mathlib

/-!
Verification of the SSE re-assembly, response reduction, credential
resolution and request orchestration logic of the agent_mcp servers
(`src/agent_mcp/chatgpt_fastapi_server.py` and
`src/agent_mcp/openapi_oauth_server.py`).

Modelling conventions:
* JSON values produced by Python's `json.loads` are modelled by the
  inductive `Json`; JSON numbers are modelled as integers (no claim
  depends on non-integral numerics) and objects model Python dicts
  (distinct keys, insertion order).
* `json.loads` itself is external library code; it is modelled as an
  abstract parameter `decode : String → Option Json` (`none` models a
  `json.JSONDecodeError`), instantiated with a concrete table for
  witnesses and counterexamples.
* Python's `str.strip`, `str.startswith`, slicing and `"\n".join` are
  re-implemented over `List Char` (`pyStrip`, `pyStartsWith`, ...);
  whitespace is modelled as space/tab/CR/LF.
* Python exceptions raised by the translated code (`TypeError`,
  `AttributeError`) are modelled with `Except PyErr`; their message
  strings are modelled loosely (the code under verification never
  inspects them).
* Timestamps (`time.time()`) are modelled as integers: only their order
  and addition of whole-second TTLs are ever used.
-/

/-- A JSON value as produced by Python's `json.loads`. -/
inductive Json where
  | null
  | bool (b : Bool)
  | num (n : Int)
  | str (s : String)
  | arr (xs : List Json)
  | obj (kvs : List (String × Json))

/-- Python exceptions that the translated code can raise. -/
inductive PyErr where
  | typeError (msg : String)
  | attributeError (msg : String)
  | keyError (msg : String)
deriving DecidableEq, Repr

/- ### Python primitives -/

/-- Whitespace for the model of `str.strip`. -/
def isSpaceChar (c : Char) : Bool :=
  c == ' ' || c == '\t' || c == '\n' || c == '\r'

/-- Model of Python `str.strip()`. -/
def pyStrip (s : String) : String :=
  ⟨((s.data.dropWhile isSpaceChar).reverse.dropWhile isSpaceChar).reverse⟩

/-- Model of Python `str.startswith(p)`. -/
def pyStartsWith (s p : String) : Bool :=
  p.data.isPrefixOf s.data

/-- Model of Python `s[n:]` (drop the first `n` characters). -/
def pyDrop (s : String) (n : Nat) : String :=
  ⟨s.data.drop n⟩

/-- Model of `sep.join(xs)`. -/
def pyJoin (sep : String) : List String → String
  | [] => ""
  | [x] => x
  | x :: y :: xs => x ++ sep ++ pyJoin sep (y :: xs)

/-- `containsSub needle hay`: model of Python substring membership
`needle in hay` for strings. -/
def containsSub (needle : List Char) : List Char → Bool
  | [] => needle.isEmpty
  | c :: t => needle.isPrefixOf (c :: t) || containsSub needle t

/-- Python type name of a JSON value (used in modelled error messages). -/
def pyTypeName : Json → String
  | .null => "NoneType"
  | .bool _ => "bool"
  | .num _ => "int"
  | .str _ => "str"
  | .arr _ => "list"
  | .obj _ => "dict"

/-- First value bound to `k` in an association list (Python dict lookup;
dicts have distinct keys). -/
def assocGet {β : Type} (kvs : List (String × β)) (k : String) : Option β :=
  (kvs.find? (fun kv => kv.1 == k)).map (·.2)

/-- Model of Python `del d[k]`. -/
def assocErase {β : Type} (kvs : List (String × β)) (k : String) : List (String × β) :=
  kvs.filter (fun kv => !(kv.1 == k))

/-- Model of Python `d[k] = v` (overwrite in place, else append). -/
def assocInsert {β : Type} (kvs : List (String × β)) (k : String) (v : β) : List (String × β) :=
  if (assocGet kvs k).isSome then
    kvs.map (fun kv => if kv.1 == k then (k, v) else kv)
  else kvs ++ [(k, v)]

/-- Python truthiness of a JSON value. -/
def pyTruthy : Json → Bool
  | .null => false
  | .bool b => b
  | .num n => n != 0
  | .str s => !s.isEmpty
  | .arr xs => !xs.isEmpty
  | .obj kvs => !kvs.isEmpty

/-- Does this JSON value equal (Python `==`) the given string? -/
def jsonIsStr (v : Json) (s : String) : Bool :=
  match v with
  | .str x => x == s
  | _ => false

mutual
/-- Model of Python `repr` on JSON-derived values (string escaping in
`repr` is simplified to plain quoting; no claim depends on it). -/
def pyRepr : Json → String
  | .null => "None"
  | .bool true => "True"
  | .bool false => "False"
  | .num n => toString n
  | .str s => String.singleton '\'' ++ s ++ String.singleton '\''
  | .arr xs => "[" ++ pyReprList xs ++ "]"
  | .obj kvs => "\x7b" ++ pyReprKVs kvs ++ "\x7d"

/-- Comma-separated reprs of list elements. -/
def pyReprList : List Json → String
  | [] => ""
  | [x] => pyRepr x
  | x :: y :: xs => pyRepr x ++ ", " ++ pyReprList (y :: xs)

/-- Comma-separated `'key': value` reprs of dict items. -/
def pyReprKVs : List (String × Json) → String
  | [] => ""
  | [(k, v)] => String.singleton '\'' ++ k ++ String.singleton '\'' ++ ": " ++ pyRepr v
  | (k, v) :: y :: xs =>
      String.singleton '\'' ++ k ++ String.singleton '\'' ++ ": " ++ pyRepr v ++ ", " ++ pyReprKVs (y :: xs)
end

/-- Model of Python `str()` on JSON-derived values. -/
def pyStr : Json → String
  | .str s => s
  | v => pyRepr v

/-- Model of Python `key in v` (raises `TypeError` on non-iterable
values; on lists it is element equality, on strings substring search). -/
def pyContains (key : String) : Json → Except PyErr Bool
  | .obj kvs => pure (assocGet kvs key).isSome
  | .arr xs => pure (xs.any (fun x => jsonIsStr x key))
  | .str s => pure (containsSub key.data s.data)
  | v => .error (.typeError ("argument of type " ++ pyTypeName v ++ " is not iterable"))

/-- Model of Python `v[key]` for a string key. -/
def pySubscript (v : Json) (key : String) : Except PyErr Json :=
  match v with
  | .obj kvs =>
    match assocGet kvs key with
    | some x => pure x
    | none => .error (.keyError key)
  | .arr _ => .error (.typeError "list indices must be integers")
  | .str _ => .error (.typeError "string indices must be integers")
  | v => .error (.typeError (pyTypeName v ++ " is not subscriptable"))

/-- Model of Python `v.get(key)` (dict method; `AttributeError` on
non-dicts, `None` for a missing key). -/
def pyGet (v : Json) (key : String) : Except PyErr Json :=
  match v with
  | .obj kvs => pure ((assocGet kvs key).getD .null)
  | v => .error (.attributeError (pyTypeName v ++ " object has no attribute get"))

/-- Model of Python `v.get(key, dflt)`. -/
def pyGetD (v : Json) (key : String) (dflt : Json) : Except PyErr Json :=
  match v with
  | .obj kvs => pure ((assocGet kvs key).getD dflt)
  | v => .error (.attributeError (pyTypeName v ++ " object has no attribute get"))

/-- Model of Python `reversed(v)` materialised as a list (on dicts it
iterates keys in reverse insertion order). -/
def pyReversedList : Json → Except PyErr (List Json)
  | .arr xs => pure xs.reverse
  | .str s => pure (s.data.reverse.map (fun c => .str (String.singleton c)))
  | .obj kvs => pure (kvs.reverse.map (fun kv => .str kv.1))
  | v => .error (.typeError ("argument to reversed() must be a sequence, not " ++ pyTypeName v))

/- ### Event stream parser
Embeds the SSE parsing loop of `invoke_langgraph_agent`
(chatgpt_fastapi_server.py lines 474-531) and of `invoke_agent`
(openapi_oauth_server.py lines 1253-1297).  The two loops are identical
except that the former additionally accumulates `all_message_snapshots`
(a debug aid, included here as `snapshots`). -/

/-- Mutable locals of the SSE parsing loop. -/
structure SSEState where
  run_id : Json := .null
  final_messages : Json := .arr []
  snapshots : List Json := []
  current_event : Option String := none
  current_data : List String := []

/-- The body of the flush: JSON-decode the joined data lines and update
`run_id` / `final_messages` for `metadata` / `values` events.  A decode
failure (`json.JSONDecodeError`) is swallowed; the membership tests
`"run_id" in data_obj` / `"messages" in data_obj` and the subscripts can
raise `TypeError` on non-object payloads, exactly as in Python. -/
def applyFrame (ev : String) (dataObj : Json) (st : SSEState) : Except PyErr SSEState :=
  if ev == "metadata" then do
    let b ← pyContains "run_id" dataObj
    if b then do
      let v ← pySubscript dataObj "run_id"
      pure { st with run_id := v }
    else pure st
  else if ev == "values" then do
    let b ← pyContains "messages" dataObj
    if b then do
      let v ← pySubscript dataObj "messages"
      pure { st with final_messages := v, snapshots := st.snapshots ++ [v] }
    else pure st
  else pure st

/-- `if current_event and current_data: ... json.loads ...` — the flush
performed on an `event:` line or a blank line. -/
def flushPending (decode : String → Option Json) (st : SSEState) : Except PyErr SSEState :=
  match st.current_event, st.current_data with
  | some ev, d :: ds =>
    if ev == "" then pure st
    else
      match decode (pyJoin "\n" (d :: ds)) with
      | none => pure st
      | some dataObj => applyFrame ev dataObj st
  | _, _ => pure st

/-- One iteration of `async for line in response.aiter_lines()`. -/
def processLine (decode : String → Option Json) (st : SSEState) (raw : String) : Except PyErr SSEState :=
  let line := pyStrip raw
  if pyStartsWith line "event:" then do
    let st' ← flushPending decode st
    pure { st' with current_event := some (pyStrip (pyDrop line 6)), current_data := [] }
  else if pyStartsWith line "data:" then
    pure { st with current_data := st.current_data ++ [pyStrip (pyDrop line 5)] }
  else if line == "" then do
    let st' ← flushPending decode st
    pure { st' with current_event := none, current_data := [] }
  else pure st

/-- The whole SSE parsing loop.  Note there is no flush after the loop:
a pending unterminated event is discarded. -/
def processLines (decode : String → Option Json) : List String → SSEState → Except PyErr SSEState
  | [], st => pure st
  | l :: ls, st => do
    let st' ← processLine decode st l
    processLines decode ls st'

/- ### Specification-side view of the stream (for claim C1)
The frames flushed by the line discipline, independent of JSON decoding:
a pending `(event-name, joined-data)` pair is emitted when a following
`event:` line or blank line arrives, provided the name and the data
buffer are non-empty. -/

/-- The frame a pending buffer would flush as, if any. -/
def pendingFrame : Option String → List String → List (String × String)
  | some ev, d :: ds => if ev == "" then [] else [(ev, pyJoin "\n" (d :: ds))]
  | _, _ => []

/-- Ordered list of `(event-name, data)` frames flushed by the SSE line
discipline, starting from a pending buffer. -/
def flushedFrames : List String → Option String → List String → List (String × String)
  | [], _, _ => []
  | l :: ls, ev, ds =>
    let line := pyStrip l
    if pyStartsWith line "event:" then
      pendingFrame ev ds ++ flushedFrames ls (some (pyStrip (pyDrop line 6))) []
    else if pyStartsWith line "data:" then
      flushedFrames ls ev (ds ++ [pyStrip (pyDrop line 5)])
    else if line == "" then
      pendingFrame ev ds ++ flushedFrames ls none []
    else
      flushedFrames ls ev ds

/-- The `messages` payloads of the well-formed `values` frames, in
order: frames named `values` whose data decodes to a JSON object with a
`messages` key. -/
def valuesMsgs (decode : String → Option Json) (frames : List (String × String)) : List Json :=
  frames.filterMap (fun f =>
    if f.1 == "values" then
      match decode f.2 with
      | some (.obj kvs) => assocGet kvs "messages"
      | _ => none
    else none)

/-- A frame is benign when, if it is named `metadata` or `values`, its
data either fails to JSON-decode or decodes to a JSON object.  (A
well-formed non-object payload for these event names makes the Python
membership test or subscript raise `TypeError`.) -/
def benignFrame (decode : String → Option Json) (f : String × String) : Bool :=
  if f.1 == "metadata" || f.1 == "values" then
    match decode f.2 with
    | some (.obj _) => true
    | some _ => false
    | none => true
  else true

/-- All flushed frames are benign. -/
def benignFrames (decode : String → Option Json) (frames : List (String × String)) : Bool :=
  frames.all (benignFrame decode)

/- ### Response reducers
`invoke_langgraph_agent` (chatgpt_fastapi_server.py lines 544-585) and
`invoke_agent` (openapi_oauth_server.py lines 1303-1323) each scan the
final messages in reverse for the last substantial assistant reply.
The two reducers differ: only the former skips ephemeral progress
messages and accepts `type == "AIMessage"`, and they prefer opposite
content sources when both a nested `message.content` and a top-level
`content` are present. -/

/-- `msg.get("progress", {}).get("ephemeral")`, as a truthiness test. -/
def ephemeralCheck (msg : Json) : Except PyErr Bool := do
  let p ← pyGetD msg "progress" (.obj [])
  let e ← pyGet p "ephemeral"
  pure (pyTruthy e)

/-- `msg.get("role") == "assistant" or msg.get("type") == "ai" or
msg.get("type") == "AIMessage"` (chatgpt_fastapi_server.py 558-562). -/
def isAssistantChatGPT (msg : Json) : Except PyErr Bool := do
  let r ← pyGet msg "role"
  if jsonIsStr r "assistant" then pure true
  else do
    let t ← pyGet msg "type"
    pure (jsonIsStr t "ai" || jsonIsStr t "AIMessage")

/-- `msg.get("role") == "assistant" or msg.get("type") == "ai"`
(openapi_oauth_server.py 1307-1310; no `AIMessage` case). -/
def isAssistantOpenAPI (msg : Json) : Except PyErr Bool := do
  let r ← pyGet msg "role"
  if jsonIsStr r "assistant" then pure true
  else do
    let t ← pyGet msg "type"
    pure (jsonIsStr t "ai")

/-- `elif "content" in msg: content = msg["content"]` — the top-level
fallback shared by both extractors (result `null` models Python `None`
when neither branch assigns). -/
def topLevelContent (msg : Json) : Except PyErr Json := do
  let b ← pyContains "content" msg
  if b then pySubscript msg "content" else pure .null

/-- Content extraction of chatgpt_fastapi_server.py lines 565-572:
nested `msg["message"].get("content", "")` first (when `msg["message"]`
is a dict), else top-level `msg["content"]`. -/
def extractContentChatGPT (msg : Json) : Except PyErr Json := do
  let b ← pyContains "message" msg
  if b then do
    let mv ← pySubscript msg "message"
    match mv with
    | .obj ikvs => pure ((assocGet ikvs "content").getD (.str ""))
    | _ => topLevelContent msg
  else topLevelContent msg

/-- Content extraction of openapi_oauth_server.py lines 1312-1319:
top-level `msg["content"]` first, nested `msg["message"]` only as the
fallback. -/
def extractContentOpenAPI (msg : Json) : Except PyErr Json := do
  let b ← pyContains "content" msg
  if b then pySubscript msg "content"
  else do
    let b2 ← pyContains "message" msg
    if b2 then do
      let mv ← pySubscript msg "message"
      match mv with
      | .obj ikvs => pure ((assocGet ikvs "content").getD (.str ""))
      | _ => pure .null
    else pure .null

/-- Acceptance test `if content and not str(content).startswith("{")`. -/
def substantial (c : Json) : Bool :=
  pyTruthy c && !(pyStartsWith (pyStr c) "\x7b")

/-- The scan of `for msg in reversed(final_messages)` in
chatgpt_fastapi_server.py lines 548-580, on the already-reversed list;
returns the selected message together with its extracted content. -/
def findSubstantialChatGPT : List Json → Except PyErr (Option (Json × Json))
  | [] => pure none
  | m :: rest => do
    let eph ← ephemeralCheck m
    if eph then findSubstantialChatGPT rest
    else do
      let isA ← isAssistantChatGPT m
      if isA then do
        let c ← extractContentChatGPT m
        if substantial c then pure (some (m, c))
        else findSubstantialChatGPT rest
      else findSubstantialChatGPT rest

/-- The scan of `for msg in reversed(final_messages)` in
openapi_oauth_server.py lines 1305-1323 (no ephemeral filter). -/
def findSubstantialOpenAPI : List Json → Except PyErr (Option Json)
  | [] => pure none
  | m :: rest => do
    let isA ← isAssistantOpenAPI m
    if isA then do
      let c ← extractContentOpenAPI m
      if substantial c then pure (some c)
      else findSubstantialOpenAPI rest
    else findSubstantialOpenAPI rest

/-- Fallback of the chatgpt_fastapi reducer (line 584). -/
def fallbackChatGPT : String := "Agent is processing your request. Please try again in a moment."

/-- Fallback of the openapi_oauth reducer (line 1304). -/
def fallbackOpenAPI : String := "Task completed"

/-- `output_text` after the chatgpt_fastapi scan and the
`if not output_text:` fallback (lines 546-585). -/
def outputTextChatGPT (finalMessages : Json) : Except PyErr Json := do
  let msgs ← pyReversedList finalMessages
  let r ← findSubstantialChatGPT msgs
  let out := match r with
    | some (_, c) => c
    | none => Json.null
  pure (if pyTruthy out then out else .str fallbackChatGPT)

/-- `output_text` after the openapi_oauth scan (initialised to
`"Task completed"`, lines 1304-1323). -/
def outputTextOpenAPI (finalMessages : Json) : Except PyErr Json := do
  let msgs ← pyReversedList finalMessages
  let r ← findSubstantialOpenAPI msgs
  pure (match r with
    | some c => c
    | none => .str fallbackOpenAPI)

/- ### Request orchestrator
`invoke_langgraph_agent` (chatgpt_fastapi_server.py lines 380-631),
modelled from the point where the upstream `/runs/stream` response is
available.  Payload construction, thread-id generation and the network
call itself are outside the model; the upstream response is the input. -/

/-- The upstream streaming response: HTTP status, the error body that
would be drained on a non-2xx status, and the SSE lines of the stream. -/
structure UpstreamResponse where
  status : Nat
  errorBody : String
  lines : List String

/-- Modelled message of a `PyErr` caught by the handler's generic
`except Exception as e` clause. -/
def pyErrStr : PyErr → String
  | .typeError m => m
  | .attributeError m => m
  | .keyError m => m

/-- `invoke_langgraph_agent` from the upstream response on: a status
`>= 400` drains the body and raises `httpx.HTTPStatusError("LangGraph
error: {status}")`, caught by `except httpx.HTTPError`; otherwise the
SSE loop and the reducer run, any exception being caught by `except
Exception`; each handler returns its own MCP envelope dict literal
(lines 455-470, 589-597, 604-631). -/
def invoke_langgraph_agent (decode : String → Option Json) (resp : UpstreamResponse) : Json :=
  if 400 ≤ resp.status then
    Json.obj [("content", .arr [.obj [("type", .str "text"),
      ("text", .str ("HTTP error invoking agent: LangGraph error: " ++ toString resp.status))]]),
      ("isError", .bool true)]
  else
    match processLines decode resp.lines {} with
    | .error e =>
      Json.obj [("content", .arr [.obj [("type", .str "text"),
        ("text", .str ("Error invoking agent: " ++ pyErrStr e))]]),
        ("isError", .bool true)]
    | .ok st =>
      match outputTextChatGPT st.final_messages with
      | .error e =>
        Json.obj [("content", .arr [.obj [("type", .str "text"),
          ("text", .str ("Error invoking agent: " ++ pyErrStr e))]]),
          ("isError", .bool true)]
      | .ok out =>
        Json.obj [("content", .arr [.obj [("type", .str "text"),
          ("text", .str (pyStr out))]]),
          ("isError", .bool false)]

/-- Did `invoke_langgraph_agent` catch an exception (upstream-rejected,
or a `TypeError`/`AttributeError` escaping the parse or reduce)? -/
def invokeCaught (decode : String → Option Json) (resp : UpstreamResponse) : Bool :=
  if 400 ≤ resp.status then true
  else
    match processLines decode resp.lines {} with
    | .error _ => true
    | .ok st =>
      match outputTextChatGPT st.final_messages with
      | .error _ => true
      | .ok _ => false

/- ### Credential resolver
`verify_token` of chatgpt_fastapi_server.py (lines 137-285) and the
token-storing step of `oauth_token` (lines 1072-1082).  The Okta
introspection call `validate_okta_token` performs network I/O and is
abstracted as a parameter `oktaValidate : String → Option Json`
(`none` models both a non-200 response and a network failure; the
claims settled here never reach a successful Okta branch). -/

/-- One entry of the in-memory `active_tokens` table. -/
structure TokenData where
  client_id : String
  scope : String
  expires_at : Int
  created_at : Int
deriving DecidableEq, Repr

/-- The process-wide configuration consulted by `verify_token`. -/
structure AuthConfig where
  oauthEnabled : Bool
  apiKeys : List String
  oktaConfigured : Bool

/-- The possible non-raising returns of `verify_token`:
`return True` (auth disabled), the stored token-data dict, the
`{"type": "api_key", "valid": True}` dict, and the Okta-validated dict. -/
inductive VerifyOk where
  | boolTrue
  | tokenData (td : TokenData)
  | apiKeyResult
  | oktaResult (token : String) (info : Json)

/-- The `HTTPException(status_code=401, ...)` raises of `verify_token`
(the `detail`/`WWW-Authenticate` presentation strings are elided). -/
inductive VerifyErr where
  | missingCredential
  | expiredToken
  | invalidToken
deriving DecidableEq, Repr

/-- `verify_token`: the result together with the `active_tokens` table
after the call (the expired branch deletes the entry). -/
def verify_token (cfg : AuthConfig) (oktaValidate : String → Option Json)
    (tokens : List (String × TokenData)) (cred : Option String) (now : Int) :
    Except VerifyErr VerifyOk × List (String × TokenData) :=
  if !cfg.oauthEnabled then (.ok .boolTrue, tokens)
  else
    match cred with
    | none => (.error .missingCredential, tokens)
    | some token =>
      match assocGet tokens token with
      | some td =>
        if now < td.expires_at then (.ok (.tokenData td), tokens)
        else (.error .expiredToken, assocErase tokens token)
      | none =>
        if !cfg.apiKeys.isEmpty && cfg.apiKeys.contains token then
          (.ok .apiKeyResult, tokens)
        else if cfg.oktaConfigured then
          match oktaValidate token with
          | some info =>
            if pyTruthy info then (.ok (.oktaResult token info), tokens)
            else (.error .invalidToken, tokens)
          | none => (.error .invalidToken, tokens)
        else (.error .invalidToken, tokens)

/-- The token-storing step of `oauth_token` (lines 1072-1082):
`active_tokens[access_token] = {client_id, scope, expires_at: now +
OAUTH_TOKEN_EXPIRY, created_at: now}`. -/
def issueToken (tokens : List (String × TokenData)) (tok clientId scope : String)
    (expiry now : Int) : List (String × TokenData) :=
  assocInsert tokens tok ⟨clientId, scope, now + expiry, now⟩

/- ### Tool router
`execute_tool` (chatgpt_fastapi_server.py lines 887-964) and the
`tools/call` branch of `mcp_endpoint` (lines 1514-1566) with its
`except Exception` handler (lines 1615-1634).  Tools other than `echo`
perform upstream HTTP calls or return static configuration and are
abstracted by the `otherTools` parameter; the modelled `AttributeError`
occurs before any tool dispatch. -/

/-- How the `Depends(verify_token)` value arrives at `execute_tool` as a
plain Python value. -/
def authToJson : VerifyOk → Json
  | .boolTrue => .bool true
  | .tokenData td => .obj [("client_id", .str td.client_id), ("scope", .str td.scope),
      ("expires_at", .num td.expires_at), ("created_at", .num td.created_at)]
  | .apiKeyResult => .obj [("type", .str "api_key"), ("valid", .bool true)]
  | .oktaResult tok info => .obj [("type", .str "okta_token"), ("valid", .bool true),
      ("token", .str tok), ("token_info", info)]

/-- Lines 903-916 of `execute_tool`: `if auth and auth.get("token_info"):
user_id = token_info.get("sub") or ... or token_info.get("client_id")`,
`elif auth and auth.get("method") == "api_key": pass`. -/
def extractUserId (auth : Json) : Except PyErr Json :=
  if pyTruthy auth then do
    let ti ← pyGet auth "token_info"
    if pyTruthy ti then do
      let s ← pyGet ti "sub"
      if pyTruthy s then pure s
      else do
        let u ← pyGet ti "uid"
        if pyTruthy u then pure u
        else do
          let un ← pyGet ti "username"
          if pyTruthy un then pure un
          else do
            let em ← pyGet ti "email"
            if pyTruthy em then pure em
            else pyGet ti "client_id"
    else do
      let _m ← pyGet auth "method"
      pure .null
  else pure .null

/-- `execute_tool`: user-id extraction, `arguments.get("conversationId")`,
then tool dispatch (`echo` translated literally, the remaining tools
abstracted by `otherTools`). -/
def execute_tool (otherTools : String → Json → Json → Except PyErr Json)
    (tool_name : String) (arguments : Json) (auth : Json) : Except PyErr Json := do
  let userId ← extractUserId auth
  let _conversationId ← pyGet arguments "conversationId"
  if tool_name == "echo" then do
    let t ← pyGetD arguments "text" (.str "")
    pure (.obj [("content", .arr [.obj [("type", .str "text"), ("text", .str (pyStr t))]]),
      ("isError", .bool false)])
  else otherTools tool_name arguments userId

/-- The `tools/call` branch of `mcp_endpoint`: dispatch to
`execute_tool`, translate a `{"status": "failed"}` result or a raised
exception into the JSON-RPC error envelopes, else wrap the result. -/
def mcp_tools_call (otherTools : String → Json → Json → Except PyErr Json)
    (auth : Json) (reqId : Json) (tool_name : String) (arguments : Json) : Json :=
  if tool_name == "" then
    .obj [("jsonrpc", .str "2.0"), ("id", reqId),
      ("error", .obj [("code", .num (-32602)),
        ("message", .str "Invalid params: 'name' is required")])]
  else
    match (do
      let result ← execute_tool otherTools tool_name arguments auth
      let status ← pyGet result "status"
      if jsonIsStr status "failed" then do
        let errMsg ← pyGetD result "error" (.str "Unknown error")
        pure (Json.obj [("jsonrpc", .str "2.0"), ("id", reqId),
          ("error", .obj [("code", .num (-32603)),
            ("message", .str ("Tool execution failed: " ++ pyStr errMsg))])])
      else
        pure (Json.obj [("jsonrpc", .str "2.0"), ("id", reqId), ("result", result)]) :
      Except PyErr Json) with
    | .ok resp => resp
    | .error e =>
      .obj [("jsonrpc", .str "2.0"), ("id", reqId),
        ("error", .obj [("code", .num (-32603)),
          ("message", .str ("Internal error: " ++ pyErrStr e))])]

/- ### A concrete JSON decoder for witnesses and counterexamples
`decode0` agrees with Python's `json.loads` on exactly the strings used
in the concrete inputs below and rejects everything else. -/

/-- Concrete decode table used by witnesses and counterexamples. -/
def decode0 (s : String) : Option Json :=
  if s == "\x7b\"messages\": [\"A\"]\x7d" then
    some (.obj [("messages", .arr [.str "A"])])
  else if s == "\x7b\"messages\": [\"B\"]\x7d" then
    some (.obj [("messages", .arr [.str "B"])])
  else if s == "\x7b\"messages\": [\x7b\"role\": \"assistant\", \"content\": \"Hello\"\x7d]\x7d" then
    some (.obj [("messages", .arr [.obj [("role", .str "assistant"), ("content", .str "Hello")]])])
  else if s == "\x7b\"run_id\": \"r1\"\x7d" then
    some (.obj [("run_id", .str "r1")])
  else if s == "5" then
    some (.num 5)
  else
    none

/- ### Association-list lemmas -/

/-- Head hit for `assocGet`. -/
theorem assocGet_cons_pos {β : Type} (a : String × β) (t : List (String × β)) (k : String)
    (h : (a.1 == k) = true) : assocGet (a :: t) k = some a.2 := by
  simp [assocGet, List.find?_cons, h]

/-- Head miss for `assocGet`. -/
theorem assocGet_cons_neg {β : Type} (a : String × β) (t : List (String × β)) (k : String)
    (h : (a.1 == k) = false) : assocGet (a :: t) k = assocGet t k := by
  simp [assocGet, List.find?_cons, h]

/-- Overwriting an existing binding makes it the one found. -/
theorem assocGet_map_overwrite {β : Type} (k : String) (v : β) :
    ∀ t : List (String × β), (assocGet t k).isSome = true →
      assocGet (t.map (fun kv => if kv.1 == k then (k, v) else kv)) k = some v := by
  intro t
  induction t with
  | nil => intro h; simp [assocGet] at h
  | cons a t ih =>
    intro h
    cases ha : a.1 == k with
    | true =>
      rw [List.map_cons, if_pos ha]
      exact assocGet_cons_pos (k, v) _ k (by simp)
    | false =>
      rw [List.map_cons, if_neg (by simp [ha])]
      rw [assocGet_cons_neg a t k ha] at h
      rw [assocGet_cons_neg _ _ k ha]
      exact ih h

/-- Appending a fresh binding makes it the one found. -/
theorem assocGet_append_fresh {β : Type} (k : String) (v : β) :
    ∀ t : List (String × β), assocGet t k = none →
      assocGet (t ++ [(k, v)]) k = some v := by
  intro t
  induction t with
  | nil => exact fun _ => assocGet_cons_pos (k, v) [] k (by simp)
  | cons a t ih =>
    intro h
    cases ha : a.1 == k with
    | true => rw [assocGet_cons_pos a t k ha] at h; cases h
    | false =>
      rw [assocGet_cons_neg a t k ha] at h
      rw [List.cons_append, assocGet_cons_neg _ _ k ha]
      exact ih h

/-- Inserting a binding makes it the one found. -/
theorem assocGet_insert_self {β : Type} (kvs : List (String × β)) (k : String) (v : β) :
    assocGet (assocInsert kvs k v) k = some v := by
  unfold assocInsert
  cases h : (assocGet kvs k).isSome with
  | true =>
    rw [if_pos rfl]
    exact assocGet_map_overwrite k v kvs h
  | false =>
    rw [if_neg (by simp)]
    exact assocGet_append_fresh k v kvs (by
      cases hh : assocGet kvs k with
      | none => rfl
      | some x => rw [hh] at h; cases h)

/-- After deleting a key it is no longer found. -/
theorem assocGet_erase_self {β : Type} (kvs : List (String × β)) (k : String) :
    assocGet (assocErase kvs k) k = none := by
  induction kvs with
  | nil => rfl
  | cons a t ih =>
    cases ha : a.1 == k with
    | true =>
      have hdrop : assocErase (a :: t) k = assocErase t k := by
        simp [assocErase, List.filter_cons, ha]
      rw [hdrop]
      exact ih
    | false =>
      have hkeep : assocErase (a :: t) k = a :: assocErase t k := by
        simp [assocErase, List.filter_cons, ha]
      rw [hkeep, assocGet_cons_neg _ _ k ha]
      exact ih

/- ### Claim theorems -/

/-- C8: for every upstream response with HTTP status `>= 400`, the
orchestrator returns the upstream-rejected envelope (`isError = true`,
message built from the drained error path, distinct `HTTP error` prefix)
and the result does not depend on the response's stream lines — the SSE
line parser is never run on the error body. -/
theorem upstream_error_bypasses_sse_parse_loop (decode : String → Option Json)
    (resp : UpstreamResponse) (h : 400 ≤ resp.status) :
    invoke_langgraph_agent decode resp =
      Json.obj [("content", .arr [.obj [("type", .str "text"),
        ("text", .str ("HTTP error invoking agent: LangGraph error: " ++ toString resp.status))]]),
        ("isError", .bool true)] ∧
    ∀ lines' : List String,
      invoke_langgraph_agent decode { resp with lines := lines' } =
        invoke_langgraph_agent decode resp := by
  constructor
  · simp [invoke_langgraph_agent, h]
  · intro lines'
    simp [invoke_langgraph_agent, h]

/-- C8 witness: an HTTP 503 response is mapped to the error envelope at
a concrete input. -/
theorem upstream_error_bypasses_sse_parse_loop_witness :
    400 ≤ 503 ∧
    invoke_langgraph_agent decode0 ⟨503, "\x7b\"detail\":\"down\"\x7d", ["event: values"]⟩ =
      Json.obj [("content", .arr [.obj [("type", .str "text"),
        ("text", .str "HTTP error invoking agent: LangGraph error: 503")]]),
        ("isError", .bool true)] :=
  ⟨by decide,
    (upstream_error_bypasses_sse_parse_loop decode0
      ⟨503, "\x7b\"detail\":\"down\"\x7d", ["event: values"]⟩ (by decide)).1⟩

/-- C10: every value `invoke_langgraph_agent` returns — on the success
path and on every exception path — is a dict with a boolean `isError`
and a `content` field that is a one-element list whose element has type
`"text"` and a string `text` (the selected content is coerced via
`str`); `isError` is true exactly when an exception was caught. -/
theorem invoke_result_envelope_shape (decode : String → Option Json) (resp : UpstreamResponse) :
    ∃ t : String, invoke_langgraph_agent decode resp =
      Json.obj [("content", .arr [.obj [("type", .str "text"), ("text", .str t)]]),
        ("isError", .bool (invokeCaught decode resp))] := by
  unfold invoke_langgraph_agent invokeCaught
  by_cases h : 400 ≤ resp.status
  · rw [if_pos h, if_pos h]
    exact ⟨_, rfl⟩
  · rw [if_neg h, if_neg h]
    cases hp : processLines decode resp.lines {} with
    | error e => exact ⟨_, rfl⟩
    | ok st =>
      dsimp only
      cases hr : outputTextChatGPT st.final_messages with
      | error e => exact ⟨_, rfl⟩
      | ok out => exact ⟨_, rfl⟩

/-- C4 counterexample: a credential that is both a configured API key
and a (valid) issued token resolves through the issued-token branch,
not to the API-key context — the API-key result is NOT independent of
the issued-token table when the same value appears there. -/
theorem api_key_shadowed_by_issued_token :
    verify_token ⟨true, ["k"], false⟩ (fun _ => none)
      [("k", ⟨"client-1", "mcp:access", 100, 0⟩)] (some "k") 50 =
      (.ok (.tokenData ⟨"client-1", "mcp:access", 100, 0⟩),
        [("k", ⟨"client-1", "mcp:access", 100, 0⟩)]) ∧
    (Except.ok (VerifyOk.tokenData ⟨"client-1", "mcp:access", 100, 0⟩) :
      Except VerifyErr VerifyOk) ≠ .ok .apiKeyResult := by
  refine ⟨rfl, ?_⟩
  intro h
  injection h with h'
  cases h'

/-- C4 (amended): a credential in the configured static API-key set
resolves (with auth enabled) to the API-key context with no subject,
for every issued-token table state in which the value is NOT a key of
the table; when it is, the issued-token branch takes priority. -/
theorem api_key_resolution_without_table_entry (cfg : AuthConfig)
    (oktaValidate : String → Option Json) (tokens : List (String × TokenData))
    (tok : String) (now : Int) (hen : cfg.oauthEnabled = true)
    (hmem : tok ∈ cfg.apiKeys) (habs : assocGet tokens tok = none) :
    verify_token cfg oktaValidate tokens (some tok) now = (.ok .apiKeyResult, tokens) := by
  have hne : cfg.apiKeys.isEmpty = false := by
    cases hcase : cfg.apiKeys with
    | nil => rw [hcase] at hmem; cases hmem
    | cons a l => rfl
  have hcontains : cfg.apiKeys.contains tok = true := List.elem_eq_true_of_mem hmem
  simp [verify_token, hen, habs, hne, hcontains, hmem]

/-- C4 witness: a concrete API key resolves to the API-key context when
absent from the issued-token table. -/
theorem api_key_resolution_without_table_entry_witness :
    verify_token ⟨true, ["k"], false⟩ (fun _ => none)
      [("other", ⟨"client-1", "mcp:access", 100, 0⟩)] (some "k") 50 =
      (.ok .apiKeyResult, [("other", ⟨"client-1", "mcp:access", 100, 0⟩)]) :=
  api_key_resolution_without_table_entry ⟨true, ["k"], false⟩ (fun _ => none)
    [("other", ⟨"client-1", "mcp:access", 100, 0⟩)] "k" 50 rfl
    (by decide) (by decide)

/-- C3: for a token present in the issued-token table (here put there by
the issuance step of `oauth_token`), resolving before expiry yields the
issued-token context whose record carries the client_id given at
issuance; resolving after expiry raises the Expired 401 failure and, in
the same call, deletes the entry, so a subsequent lookup of the value no
longer finds it. -/
theorem issued_token_resolve_and_expiry (cfg : AuthConfig)
    (oktaValidate : String → Option Json) (prev : List (String × TokenData))
    (tok clientId scope : String) (expiry t0 : Int) (hen : cfg.oauthEnabled = true) :
    (∀ now : Int, now < t0 + expiry →
      verify_token cfg oktaValidate (issueToken prev tok clientId scope expiry t0)
          (some tok) now =
        (.ok (.tokenData ⟨clientId, scope, t0 + expiry, t0⟩),
          issueToken prev tok clientId scope expiry t0)) ∧
    (∀ now : Int, t0 + expiry < now →
      verify_token cfg oktaValidate (issueToken prev tok clientId scope expiry t0)
          (some tok) now =
        (.error .expiredToken,
          assocErase (issueToken prev tok clientId scope expiry t0) tok) ∧
      assocGet (assocErase (issueToken prev tok clientId scope expiry t0) tok) tok = none) := by
  have hget : assocGet (issueToken prev tok clientId scope expiry t0) tok =
      some ⟨clientId, scope, t0 + expiry, t0⟩ :=
    assocGet_insert_self prev tok ⟨clientId, scope, t0 + expiry, t0⟩
  constructor
  · intro now hnow
    simp [verify_token, hen, hget, hnow]
  · intro now hnow
    refine ⟨?_, assocGet_erase_self _ tok⟩
    have hnotlt : ¬ now < t0 + expiry := not_lt_of_gt hnow
    simp [verify_token, hen, hget, hnotlt]

/-- C3 witness: a concrete issuance at time 0 with TTL 3600, resolved at
time 10 (valid) and at time 4000 (expired and deleted). -/
theorem issued_token_resolve_and_expiry_witness :
    (verify_token ⟨true, [], false⟩ (fun _ => none)
        (issueToken [] "tk" "client-1" "mcp:access" 3600 0) (some "tk") 10 =
      (.ok (.tokenData ⟨"client-1", "mcp:access", 0 + 3600, 0⟩),
        issueToken [] "tk" "client-1" "mcp:access" 3600 0)) ∧
    (verify_token ⟨true, [], false⟩ (fun _ => none)
        (issueToken [] "tk" "client-1" "mcp:access" 3600 0) (some "tk") 4000 =
      (.error .expiredToken,
        assocErase (issueToken [] "tk" "client-1" "mcp:access" 3600 0) "tk") ∧
      assocGet (assocErase (issueToken [] "tk" "client-1" "mcp:access" 3600 0) "tk") "tk" =
        none) :=
  ⟨(issued_token_resolve_and_expiry ⟨true, [], false⟩ (fun _ => none) [] "tk" "client-1"
      "mcp:access" 3600 0 rfl).1 10 (by decide),
    (issued_token_resolve_and_expiry ⟨true, [], false⟩ (fun _ => none) [] "tk" "client-1"
      "mcp:access" 3600 0 rfl).2 4000 (by decide)⟩

/-- C5: with authentication disabled, `verify_token` returns `True`
unconditionally (with or without a credential, for every table state);
but the tool router then crashes on that value — `execute_tool` calls
`auth.get("token_info")` on the bool, raising `AttributeError`, so a
`tools/call` for the known tool `echo` is answered with a JSON-RPC
-32603 internal error instead of succeeding.  This contradicts the
claim's (and the spec's) intent that disabled auth is a working
deployment mode, and is evaluated here at the failing input. -/
theorem auth_disabled_tool_call_internal_error :
    (∀ (tokens : List (String × TokenData)) (cred : Option String) (now : Int),
      verify_token ⟨false, [], false⟩ (fun _ => none) tokens cred now =
        (.ok .boolTrue, tokens)) ∧
    mcp_tools_call (fun _ _ _ => .ok .null) (authToJson .boolTrue) (.str "1") "echo"
      (.obj [("text", .str "hi")]) =
      .obj [("jsonrpc", .str "2.0"), ("id", .str "1"),
        ("error", .obj [("code", .num (-32603)),
          ("message", .str "Internal error: bool object has no attribute get")])] := by
  exact ⟨fun tokens cred now => rfl, rfl⟩

/-- C7 counterexample: a qualifying assistant message carrying BOTH a
nested `message.content` ("inner") and a top-level `content` ("outer");
the `invoke_agent` reducer of openapi_oauth_server extracts the
top-level value, not the nested one. -/
theorem openapi_extract_prefers_top_level :
    extractContentOpenAPI (.obj [("role", .str "assistant"), ("content", .str "outer"),
      ("message", .obj [("content", .str "inner")])]) = .ok (.str "outer") ∧
    outputTextOpenAPI (.arr [.obj [("role", .str "assistant"), ("content", .str "outer"),
      ("message", .obj [("content", .str "inner")])]]) = .ok (.str "outer") ∧
    Json.str "outer" ≠ Json.str "inner" := by
  refine ⟨rfl, rfl, ?_⟩
  simp

/-- C7 (amended): the `invoke_langgraph_agent` reducer prefers the
nested `message.content` (when the `message` value is a dict) and falls
back to the top-level `content` when no `message` key is present; the
`invoke_agent` reducer of openapi_oauth_server has the opposite
preference, extracting the top-level `content` whenever that key is
present. -/
theorem content_extraction_preference :
    (∀ (kvs ikvs : List (String × Json)), assocGet kvs "message" = some (.obj ikvs) →
      extractContentChatGPT (.obj kvs) = .ok ((assocGet ikvs "content").getD (.str ""))) ∧
    (∀ (kvs : List (String × Json)) (c : Json), assocGet kvs "message" = none →
      assocGet kvs "content" = some c → extractContentChatGPT (.obj kvs) = .ok c) ∧
    (∀ (kvs : List (String × Json)) (c : Json), assocGet kvs "content" = some c →
      extractContentOpenAPI (.obj kvs) = .ok c) := by
  refine ⟨?_, ?_, ?_⟩
  · intro kvs ikvs h
    simp [extractContentChatGPT, pyContains, pySubscript, h]
    rfl
  · intro kvs c hm hc
    simp [extractContentChatGPT, topLevelContent, pyContains, pySubscript, hm, hc]
    rfl
  · intro kvs c hc
    simp [extractContentOpenAPI, pyContains, pySubscript, hc]
    rfl

/-- C7 witness: the three preference facts evaluated at concrete
messages. -/
theorem content_extraction_preference_witness :
    extractContentChatGPT (.obj [("message", .obj [("content", .str "inner")]),
      ("content", .str "outer")]) = .ok (.str "inner") ∧
    extractContentChatGPT (.obj [("content", .str "solo")]) = .ok (.str "solo") ∧
    extractContentOpenAPI (.obj [("content", .str "outer"),
      ("message", .obj [("content", .str "inner")])]) = .ok (.str "outer") :=
  ⟨content_extraction_preference.1 [("message", .obj [("content", .str "inner")]),
      ("content", .str "outer")] [("content", .str "inner")] rfl,
    content_extraction_preference.2.1 [("content", .str "solo")] (.str "solo") rfl rfl,
    content_extraction_preference.2.2 [("content", .str "outer"),
      ("message", .obj [("content", .str "inner")])] (.str "outer") rfl⟩

/- ### Reducer lemmas -/

/-- `pure` on `Except` is `ok`. -/
@[simp] theorem except_pure_eq {ε α : Type} (a : α) : (pure a : Except ε α) = .ok a := rfl

/-- Bind on an `ok`. -/
@[simp] theorem except_bind_ok {ε α β : Type} (a : α) (f : α → Except ε β) :
    (Except.ok a : Except ε α) >>= f = f a := rfl

/-- Bind on an `error`. -/
@[simp] theorem except_bind_err {ε α β : Type} (e : ε) (f : α → Except ε β) :
    (Except.error e : Except ε α) >>= f = .error e := rfl

/-- A message the chatgpt_fastapi reducer scans past: either flagged
ephemeral, or not assistant-qualifying. -/
def skippedChatGPT (m : Json) : Prop :=
  ephemeralCheck m = .ok true ∨
    (ephemeralCheck m = .ok false ∧ isAssistantChatGPT m = .ok false)

/-- Scanning past a skipped message. -/
theorem findSubstantialChatGPT_skip (m : Json) (rest : List Json) (h : skippedChatGPT m) :
    findSubstantialChatGPT (m :: rest) = findSubstantialChatGPT rest := by
  rcases h with h | ⟨h1, h2⟩
  · simp [findSubstantialChatGPT, h]
  · simp [findSubstantialChatGPT, h1, h2]

/-- Scanning past a block of skipped messages. -/
theorem findSubstantialChatGPT_skipAll (xs ys : List Json)
    (h : ∀ m ∈ xs, skippedChatGPT m) :
    findSubstantialChatGPT (xs ++ ys) = findSubstantialChatGPT ys := by
  induction xs with
  | nil => rfl
  | cons m t ih =>
    rw [List.cons_append, findSubstantialChatGPT_skip m _ (h m (by simp))]
    exact ih (fun m' hm' => h m' (by simp [hm']))

/-- Selecting a substantial assistant message at the head. -/
theorem findSubstantialChatGPT_select (m : Json) (rest : List Json) (c : Json)
    (h1 : ephemeralCheck m = .ok false) (h2 : isAssistantChatGPT m = .ok true)
    (h3 : extractContentChatGPT m = .ok c) (h4 : substantial c = true) :
    findSubstantialChatGPT (m :: rest) = .ok (some (m, c)) := by
  simp [findSubstantialChatGPT, h1, h2, h3, h4]

/-- C2 counterexample: a message flagged ephemeral via
`progress.ephemeral` whose content the `invoke_agent` reducer of
openapi_oauth_server selects as the output text (it has no ephemeral
filter), instead of returning a fallback string. -/
theorem openapi_reducer_selects_ephemeral :
    ephemeralCheck (.obj [("role", .str "assistant"), ("content", .str "hi"),
      ("progress", .obj [("ephemeral", .bool true)])]) = .ok true ∧
    outputTextOpenAPI (.arr [.obj [("role", .str "assistant"), ("content", .str "hi"),
      ("progress", .obj [("ephemeral", .bool true)])]]) = .ok (.str "hi") ∧
    Json.str "hi" ≠ Json.str fallbackOpenAPI := by
  refine ⟨rfl, rfl, ?_⟩
  simp [fallbackOpenAPI]

/-- C2 (amended): for the `invoke_langgraph_agent` reducer of
chatgpt_fastapi_server the claim holds: a message whose
`progress.ephemeral` flag is truthy is never the selected message, and
on a list in which every message is either ephemeral or not
assistant-qualifying the reducer returns the fixed fallback string.
The `invoke_agent` reducer of openapi_oauth_server applies no ephemeral
filter (see the counterexample). -/
theorem chatgpt_reducer_never_selects_ephemeral :
    (∀ (l : List Json) (m c : Json), findSubstantialChatGPT l = .ok (some (m, c)) →
      ephemeralCheck m = .ok false) ∧
    (∀ l : List Json, (∀ m ∈ l, skippedChatGPT m) →
      outputTextChatGPT (.arr l) = .ok (.str fallbackChatGPT)) := by
  constructor
  · intro l
    induction l with
    | nil =>
      intro m c h
      simp [findSubstantialChatGPT] at h
    | cons m' rest ih =>
      intro m c h
      cases heph : ephemeralCheck m' with
      | error e => simp [findSubstantialChatGPT, heph] at h
      | ok b =>
        cases b with
        | true =>
          rw [findSubstantialChatGPT_skip m' rest (Or.inl heph)] at h
          exact ih m c h
        | false =>
          cases hisa : isAssistantChatGPT m' with
          | error e => simp [findSubstantialChatGPT, heph, hisa] at h
          | ok ba =>
            cases ba with
            | false =>
              rw [findSubstantialChatGPT_skip m' rest (Or.inr ⟨heph, hisa⟩)] at h
              exact ih m c h
            | true =>
              cases hex : extractContentChatGPT m' with
              | error e => simp [findSubstantialChatGPT, heph, hisa, hex] at h
              | ok c' =>
                cases hsub : substantial c' with
                | false =>
                  simp only [findSubstantialChatGPT, heph, hisa, hex, hsub,
                    except_bind_ok, if_true, if_false, Bool.false_eq_true, if_neg] at h
                  exact ih m c h
                | true =>
                  rw [findSubstantialChatGPT_select m' rest c' heph hisa hex hsub] at h
                  injection h with h'
                  injection h' with h''
                  cases h''
                  exact heph
  · intro l hall
    have hnone : findSubstantialChatGPT l.reverse = .ok none := by
      have := findSubstantialChatGPT_skipAll l.reverse []
        (fun m hm => hall m (List.mem_reverse.mp hm))
      simpa using this
    simp [outputTextChatGPT, pyReversedList, hnone, pyTruthy]

/-- C2 witness: the never-selected fact applied where a non-ephemeral
assistant message is selected, and the fallback fact applied to a list
whose only message is an ephemeral assistant message. -/
theorem chatgpt_reducer_never_selects_ephemeral_witness :
    ephemeralCheck (.obj [("role", .str "assistant"), ("content", .str "ok")]) = .ok false ∧
    outputTextChatGPT (.arr [.obj [("role", .str "assistant"), ("content", .str "hi"),
      ("progress", .obj [("ephemeral", .bool true)])]]) = .ok (.str fallbackChatGPT) :=
  ⟨chatgpt_reducer_never_selects_ephemeral.1
      [.obj [("role", .str "assistant"), ("content", .str "ok")]]
      (.obj [("role", .str "assistant"), ("content", .str "ok")]) (.str "ok") rfl,
    chatgpt_reducer_never_selects_ephemeral.2
      [.obj [("role", .str "assistant"), ("content", .str "hi"),
        ("progress", .obj [("ephemeral", .bool true)])]]
      (by
        intro m hm
        rw [List.mem_singleton] at hm
        subst hm
        exact Or.inl rfl)⟩

/-- C6 counterexample: a message with `type == "AIMessage"` and
non-empty, non-brace content qualifies as assistant-authored under the
claim's definition (and the chatgpt_fastapi reducer accepts it), but the
`invoke_agent` reducer of openapi_oauth_server does not check
`AIMessage` and returns its fallback instead of the content. -/
theorem openapi_reducer_misses_aimessage :
    ephemeralCheck (.obj [("type", .str "AIMessage"), ("content", .str "hello")]) = .ok false ∧
    isAssistantChatGPT (.obj [("type", .str "AIMessage"), ("content", .str "hello")]) = .ok true ∧
    outputTextOpenAPI (.arr [.obj [("type", .str "AIMessage"), ("content", .str "hello")]]) =
      .ok (.str fallbackOpenAPI) ∧
    Json.str fallbackOpenAPI ≠ Json.str "hello" := by
  refine ⟨rfl, rfl, rfl, ?_⟩
  simp [fallbackOpenAPI]

/-- C6 (amended): for the `invoke_langgraph_agent` reducer of
chatgpt_fastapi_server the claim holds: on a message list whose only
non-skipped message `m` qualifies as assistant-authored (role
"assistant" or type "ai"/"AIMessage") with non-empty content whose
string form does not start with a brace, the reducer returns that
content verbatim.  The `invoke_agent` reducer of openapi_oauth_server
does not recognise `type == "AIMessage"` and applies no ephemeral
filter (see the counterexample). -/
theorem chatgpt_reducer_returns_unique_candidate (l1 l2 : List Json) (m c : Json)
    (hl1 : ∀ m' ∈ l1, skippedChatGPT m') (hl2 : ∀ m' ∈ l2, skippedChatGPT m')
    (h1 : ephemeralCheck m = .ok false) (h2 : isAssistantChatGPT m = .ok true)
    (h3 : extractContentChatGPT m = .ok c) (h4 : substantial c = true) :
    outputTextChatGPT (.arr (l1 ++ m :: l2)) = .ok c := by
  have hrev : (l1 ++ m :: l2).reverse = l2.reverse ++ m :: l1.reverse := by
    simp [List.reverse_append]
  have hfind : findSubstantialChatGPT (l1 ++ m :: l2).reverse = .ok (some (m, c)) := by
    rw [hrev, findSubstantialChatGPT_skipAll l2.reverse _
      (fun m' hm' => hl2 m' (List.mem_reverse.mp hm'))]
    exact findSubstantialChatGPT_select m _ c h1 h2 h3 h4
  have htruthy : pyTruthy c = true := by
    have h' := h4
    simp [substantial] at h'
    exact h'.1
  rw [hrev] at hfind
  simp [outputTextChatGPT, pyReversedList, hfind, htruthy]

/-- C6 witness: the amended fact applied to a one-message list with an
`AIMessage`-typed candidate. -/
theorem chatgpt_reducer_returns_unique_candidate_witness :
    outputTextChatGPT (.arr [.obj [("type", .str "AIMessage"), ("content", .str "hello")]]) =
      .ok (.str "hello") :=
  chatgpt_reducer_returns_unique_candidate [] [] 
    (.obj [("type", .str "AIMessage"), ("content", .str "hello")]) (.str "hello")
    (fun m' hm' => absurd hm' (List.not_mem_nil m'))
    (fun m' hm' => absurd hm' (List.not_mem_nil m'))
    rfl rfl rfl rfl

/- ### SSE parser lemmas -/

/-- A line that starts with `data:` does not start with `event:`. -/
theorem data_not_event (s : String) (h : pyStartsWith s "data:" = true) :
    pyStartsWith s "event:" = false := by
  unfold pyStartsWith at h ⊢
  cases hs : s.data with
  | nil => rw [hs] at h; exact absurd h (by decide)
  | cons c t =>
    rw [hs] at h
    have h' : ('d' == c && List.isPrefixOf "ata:".data t) = true := h
    have hc : 'd' = c := by
      have := ((Bool.and_eq_true _ _) ▸ h').1
      exact beq_iff_eq.mp this
    rw [← hc]
    show ('e' == 'd' && List.isPrefixOf "vent:".data t) = false
    rfl

/-- Processing a `data:` line only appends to the data buffer. -/
theorem processLine_data (decode : String → Option Json) (st : SSEState) (d : String)
    (h : pyStartsWith (pyStrip d) "data:" = true) :
    processLine decode st d =
      .ok { st with current_data := st.current_data ++ [pyStrip (pyDrop (pyStrip d) 5)] } := by
  simp [processLine, data_not_event _ h, h]

/-- Processing a block of `data:` lines only appends to the data
buffer. -/
theorem processLines_dataOnly (decode : String → Option Json) :
    ∀ (ds : List String) (st : SSEState),
      (∀ d ∈ ds, pyStartsWith (pyStrip d) "data:" = true) →
      processLines decode ds st =
        .ok { st with current_data :=
          st.current_data ++ ds.map (fun d => pyStrip (pyDrop (pyStrip d) 5)) } := by
  intro ds
  induction ds with
  | nil => intro st _; simp [processLines]
  | cons d t ih =>
    intro st h
    simp only [processLines, processLine_data decode st d (h d (by simp)), except_bind_ok]
    rw [ih _ (fun d' hd' => h d' (by simp [hd']))]
    simp [List.append_assoc]

/-- The parsing loop distributes over list append. -/
theorem processLines_append (decode : String → Option Json) (xs ys : List String)
    (st : SSEState) :
    processLines decode (xs ++ ys) st =
      processLines decode xs st >>= processLines decode ys := by
  induction xs generalizing st with
  | nil => simp [processLines]
  | cons l t ih =>
    simp only [List.cons_append, processLines]
    cases hl : processLine decode st l with
    | error e => simp [hl]
    | ok st' => simp [hl, ih st']

/-- C9: an input that ends with a pending event (an `event:` line
followed by one or more `data:` lines, with no terminating blank line or
further `event:` line) discards the trailing pending data: the final
`run_id` and `final_messages` are exactly those produced when the
trailing `data:` lines are absent — even when the pending event is a
well-formed `values` or `metadata` event. -/
theorem trailing_pending_event_discarded (decode : String → Option Json)
    (prefixLines : List String) (e : String) (ds : List String)
    (he : pyStartsWith (pyStrip e) "event:" = true)
    (hds : ∀ d ∈ ds, pyStartsWith (pyStrip d) "data:" = true)
    (hne : ds ≠ []) :
    (processLines decode (prefixLines ++ e :: ds) {}).map
        (fun st => (st.run_id, st.final_messages)) =
      (processLines decode (prefixLines ++ [e]) {}).map
        (fun st => (st.run_id, st.final_messages)) := by
  rw [processLines_append, processLines_append]
  cases hp : processLines decode prefixLines {} with
  | error e2 => simp
  | ok st =>
    simp only [except_bind_ok]
    simp only [processLines, processLine, he, if_pos]
    cases hf : flushPending decode st with
    | error e2 => simp [hf]
    | ok st' =>
      simp only [hf, except_bind_ok, except_pure_eq]
      rw [processLines_dataOnly decode ds _ hds]
      rfl

/-- C9 witness: a well-formed pending `values` event at the end of the
stream is discarded at a concrete input. -/
theorem trailing_pending_event_discarded_witness :
    (processLines decode0 (["event: metadata", "data: \x7b\"run_id\": \"r1\"\x7d", ""] ++
        "event: values" :: ["data: \x7b\"messages\": [\"A\"]\x7d"]) {}).map
        (fun st => (st.run_id, st.final_messages)) =
      (processLines decode0 (["event: metadata", "data: \x7b\"run_id\": \"r1\"\x7d", ""] ++
        ["event: values"]) {}).map
        (fun st => (st.run_id, st.final_messages)) :=
  trailing_pending_event_discarded decode0
    ["event: metadata", "data: \x7b\"run_id\": \"r1\"\x7d", ""] "event: values"
    ["data: \x7b\"messages\": [\"A\"]\x7d"] (by decide)
    (by
      intro d hd
      rw [List.mem_singleton] at hd
      subst hd
      decide)
    (by decide)

/- ### C1 machinery: the parser computes the last good values payload -/

/-- `getLastD` over an append. -/
theorem getLastD_append {α : Type} (a b : List α) (d : α) :
    (a ++ b).getLastD d = b.getLastD (a.getLastD d) := by
  induction a generalizing d with
  | nil => rfl
  | cons x xs ih => rw [List.cons_append, List.getLastD_cons, List.getLastD_cons, ih]

/-- `valuesMsgs` over an append. -/
theorem valuesMsgs_append (decode : String → Option Json) (a b : List (String × String)) :
    valuesMsgs decode (a ++ b) = valuesMsgs decode a ++ valuesMsgs decode b := by
  simp [valuesMsgs, List.filterMap_append]

/-- A benign `metadata`/`values` frame that decodes successfully decodes
to an object. -/
theorem benign_obj (decode : String → Option Json) (e data : String) (j : Json)
    (hb : benignFrame decode (e, data) = true)
    (hcond : (e == "metadata" || e == "values") = true) (hd : decode data = some j) :
    ∃ kvs, j = Json.obj kvs := by
  cases j with
  | obj kvs => exact ⟨kvs, rfl⟩
  | null => simp [benignFrame, hcond, hd] at hb
  | bool b => simp [benignFrame, hcond, hd] at hb
  | num n => simp [benignFrame, hcond, hd] at hb
  | str s => simp [benignFrame, hcond, hd] at hb
  | arr xs => simp [benignFrame, hcond, hd] at hb

/-- Flushing a benign pending buffer never raises, replaces
`final_messages` by the unique good `values` payload of the pending
frame (if any), and leaves the pending buffer fields untouched. -/
theorem flushPending_benign (decode : String → Option Json) (rid msgs : Json)
    (snaps : List Json) (ev : Option String) (ds : List String)
    (H : (pendingFrame ev ds).all (benignFrame decode) = true) :
    ∃ (rid' : Json) (snaps' : List Json),
      flushPending decode ⟨rid, msgs, snaps, ev, ds⟩ =
        .ok ⟨rid', (valuesMsgs decode (pendingFrame ev ds)).getLastD msgs, snaps', ev, ds⟩ := by
  cases ev with
  | none => exact ⟨rid, snaps, rfl⟩
  | some e =>
    cases ds with
    | nil => exact ⟨rid, snaps, rfl⟩
    | cons d ds' =>
      cases he0 : e == "" with
      | true =>
        refine ⟨rid, snaps, ?_⟩
        simp [flushPending, pendingFrame, he0, valuesMsgs]
      | false =>
        cases hd : decode (pyJoin "\n" (d :: ds')) with
        | none =>
          refine ⟨rid, snaps, ?_⟩
          simp [flushPending, pendingFrame, he0, hd, valuesMsgs]
        | some j =>
          have hb : benignFrame decode (e, pyJoin "\n" (d :: ds')) = true := by
            have hh := H
            simp [pendingFrame, he0] at hh
            exact hh
          cases hme : e == "metadata" with
          | true =>
            obtain ⟨kvs, rfl⟩ := benign_obj decode e _ j hb (by simp [hme]) hd
            have heq : e = "metadata" := beq_iff_eq.mp hme
            have hev : (e == "values") = false := by subst heq; rfl
            have hnev : e ≠ "values" := by subst heq; decide
            cases hrun : assocGet kvs "run_id" with
            | some v =>
              refine ⟨v, snaps, ?_⟩
              simp [flushPending, pendingFrame, he0, hd, applyFrame, hme, hev, hnev,
                pyContains, pySubscript, hrun, valuesMsgs, List.findSome?]
            | none =>
              refine ⟨rid, snaps, ?_⟩
              simp [flushPending, pendingFrame, he0, hd, applyFrame, hme, hev, hnev,
                pyContains, pySubscript, hrun, valuesMsgs, List.findSome?]
          | false =>
            cases hev : e == "values" with
            | true =>
              obtain ⟨kvs, rfl⟩ := benign_obj decode e _ j hb (by simp [hev]) hd
              have heq : e = "values" := beq_iff_eq.mp hev
              cases hmsg : assocGet kvs "messages" with
              | some v =>
                refine ⟨rid, snaps ++ [v], ?_⟩
                simp [flushPending, pendingFrame, he0, hd, applyFrame, hme, hev, heq,
                  pyContains, pySubscript, hmsg, valuesMsgs, List.findSome?]
              | none =>
                refine ⟨rid, snaps, ?_⟩
                simp [flushPending, pendingFrame, he0, hd, applyFrame, hme, hev, heq,
                  pyContains, pySubscript, hmsg, valuesMsgs, List.findSome?]
            | false =>
              have hnev : e ≠ "values" := by
                intro hcon
                subst hcon
                simp at hev
              refine ⟨rid, snaps, ?_⟩
              simp [flushPending, pendingFrame, he0, hd, applyFrame, hme, hev, hnev,
                valuesMsgs, List.findSome?]

/-- On a stream whose flushed `metadata`/`values` frames are benign, the
SSE loop never raises and its `final_messages` is exactly the payload of
the last flushed good `values` frame (defaulting to the incoming
value). -/
theorem processLines_benign (decode : String → Option Json) :
    ∀ (lines : List String) (rid msgs : Json) (snaps : List Json)
      (ev : Option String) (ds : List String),
      benignFrames decode (flushedFrames lines ev ds) = true →
      ∃ st : SSEState, processLines decode lines ⟨rid, msgs, snaps, ev, ds⟩ = .ok st ∧
        st.final_messages = (valuesMsgs decode (flushedFrames lines ev ds)).getLastD msgs := by
  intro lines
  induction lines with
  | nil =>
    intro rid msgs snaps ev ds _
    exact ⟨⟨rid, msgs, snaps, ev, ds⟩, rfl, rfl⟩
  | cons l ls ih =>
    intro rid msgs snaps ev ds H
    cases hevl : pyStartsWith (pyStrip l) "event:" with
    | true =>
      have hff : flushedFrames (l :: ls) ev ds =
          pendingFrame ev ds ++ flushedFrames ls (some (pyStrip (pyDrop (pyStrip l) 6))) [] := by
        simp [flushedFrames, hevl]
      rw [hff] at H
      rw [benignFrames, List.all_append] at H
      have H1 : (pendingFrame ev ds).all (benignFrame decode) = true :=
        ((Bool.and_eq_true _ _) ▸ H).1
      have H2 : benignFrames decode
          (flushedFrames ls (some (pyStrip (pyDrop (pyStrip l) 6))) []) = true :=
        ((Bool.and_eq_true _ _) ▸ H).2
      obtain ⟨rid', snaps', hflush⟩ := flushPending_benign decode rid msgs snaps ev ds H1
      obtain ⟨st, hst, hfm⟩ := ih rid' ((valuesMsgs decode (pendingFrame ev ds)).getLastD msgs)
        snaps' (some (pyStrip (pyDrop (pyStrip l) 6))) [] H2
      refine ⟨st, ?_, ?_⟩
      · simp only [processLines, processLine, hevl, hflush, except_bind_ok, except_pure_eq,
          if_pos]
        exact hst
      · rw [hfm, hff, valuesMsgs_append, getLastD_append]
    | false =>
      cases hdl : pyStartsWith (pyStrip l) "data:" with
      | true =>
        have hff : flushedFrames (l :: ls) ev ds =
            flushedFrames ls ev (ds ++ [pyStrip (pyDrop (pyStrip l) 5)]) := by
          simp [flushedFrames, hevl, hdl]
        rw [hff] at H
        obtain ⟨st, hst, hfm⟩ := ih rid msgs snaps ev (ds ++ [pyStrip (pyDrop (pyStrip l) 5)]) H
        refine ⟨st, ?_, ?_⟩
        · simp only [processLines, processLine, hevl, hdl, except_bind_ok, except_pure_eq,
            Bool.false_eq_true, if_false, if_pos]
          exact hst
        · rw [hfm, hff]
      | false =>
        cases hbl : pyStrip l == "" with
        | true =>
          have hff : flushedFrames (l :: ls) ev ds =
              pendingFrame ev ds ++ flushedFrames ls none [] := by
            simp [flushedFrames, hevl, hdl, hbl]
          rw [hff] at H
          rw [benignFrames, List.all_append] at H
          have H1 : (pendingFrame ev ds).all (benignFrame decode) = true :=
            ((Bool.and_eq_true _ _) ▸ H).1
          have H2 : benignFrames decode (flushedFrames ls none []) = true :=
            ((Bool.and_eq_true _ _) ▸ H).2
          obtain ⟨rid', snaps', hflush⟩ := flushPending_benign decode rid msgs snaps ev ds H1
          obtain ⟨st, hst, hfm⟩ := ih rid' ((valuesMsgs decode (pendingFrame ev ds)).getLastD msgs)
            snaps' none [] H2
          refine ⟨st, ?_, ?_⟩
          · simp only [processLines, processLine, hevl, hdl, hbl, hflush, except_bind_ok,
              except_pure_eq, Bool.false_eq_true, if_false, if_pos]
            exact hst
          · rw [hfm, hff, valuesMsgs_append, getLastD_append]
        | false =>
          have hff : flushedFrames (l :: ls) ev ds = flushedFrames ls ev ds := by
            simp [flushedFrames, hevl, hdl, hbl]
          rw [hff] at H
          obtain ⟨st, hst, hfm⟩ := ih rid msgs snaps ev ds H
          refine ⟨st, ?_, ?_⟩
          · simp only [processLines, processLine, hevl, hdl, hbl, except_bind_ok,
              except_pure_eq, Bool.false_eq_true, if_false]
            exact hst
          · rw [hfm, hff]

/-- C1 counterexample: a flushed `values` frame whose data is the
well-formed JSON `5` makes `"messages" in data_obj` raise `TypeError`,
aborting the whole parse even though a later well-formed `values` frame
carries messages `["A"]`; the invoke returns an error envelope, so the
final messages list is not the last good `values` payload. -/
theorem sse_values_typeerror_aborts_parse :
    processLines decode0 ["event: values", "data: 5", "",
      "event: values", "data: \x7b\"messages\": [\"A\"]\x7d", ""] {} =
      .error (.typeError "argument of type int is not iterable") ∧
    valuesMsgs decode0 (flushedFrames ["event: values", "data: 5", "",
      "event: values", "data: \x7b\"messages\": [\"A\"]\x7d", ""] none []) =
      [.arr [.str "A"]] ∧
    invoke_langgraph_agent decode0 ⟨200, "", ["event: values", "data: 5", "",
      "event: values", "data: \x7b\"messages\": [\"A\"]\x7d", ""]⟩ =
      Json.obj [("content", .arr [.obj [("type", .str "text"),
        ("text", .str "Error invoking agent: argument of type int is not iterable")]]),
        ("isError", .bool true)] :=
  ⟨rfl, rfl, rfl⟩

/-- C1 (amended): on every line sequence whose flushed
`metadata`/`values` frames are benign (data fails to JSON-decode — a
malformed frame, skipped — or decodes to a JSON object), the parse never
aborts and the final messages list is exactly the `messages` field of
the last flushed `values` frame whose payload is an object containing a
`messages` key, each such payload replacing the previous one; frames
with malformed JSON before or after it are skipped without clearing the
captured snapshot.  (Without the benignity condition a well-formed
non-object `values`/`metadata` payload aborts the parse with a
`TypeError` — see the counterexample.) -/
theorem sse_last_values_snapshot (decode : String → Option Json) (lines : List String)
    (H : benignFrames decode (flushedFrames lines none []) = true) :
    ∃ st : SSEState, processLines decode lines {} = .ok st ∧
      st.final_messages = (valuesMsgs decode (flushedFrames lines none [])).getLastD (.arr []) :=
  processLines_benign decode lines .null (.arr []) [] none [] H

/-- C1 witness: a stream with a good `metadata` frame, two malformed
`values` frames and two good `values` frames; the parser completes and
keeps the last good payload. -/
theorem sse_last_values_snapshot_witness :
    benignFrames decode0 (flushedFrames ["event: metadata",
      "data: \x7b\"run_id\": \"r1\"\x7d", "", "event: values", "data: not json", "",
      "event: values", "data: \x7b\"messages\": [\"A\"]\x7d", "",
      "event: values", "data: \x7b\"messages\": [\"B\"]\x7d", "",
      "event: values", "data: still not json", ""] none []) = true ∧
    ∃ st : SSEState, processLines decode0 ["event: metadata",
      "data: \x7b\"run_id\": \"r1\"\x7d", "", "event: values", "data: not json", "",
      "event: values", "data: \x7b\"messages\": [\"A\"]\x7d", "",
      "event: values", "data: \x7b\"messages\": [\"B\"]\x7d", "",
      "event: values", "data: still not json", ""] {} = .ok st ∧
      st.final_messages = (valuesMsgs decode0 (flushedFrames ["event: metadata",
        "data: \x7b\"run_id\": \"r1\"\x7d", "", "event: values", "data: not json", "",
        "event: values", "data: \x7b\"messages\": [\"A\"]\x7d", "",
        "event: values", "data: \x7b\"messages\": [\"B\"]\x7d", "",
        "event: values", "data: still not json", ""] none [])).getLastD (.arr []) :=
  ⟨by decide, sse_last_values_snapshot decode0 ["event: metadata",
      "data: \x7b\"run_id\": \"r1\"\x7d", "", "event: values", "data: not json", "",
      "event: values", "data: \x7b\"messages\": [\"A\"]\x7d", "",
      "event: values", "data: \x7b\"messages\": [\"B\"]\x7d", "",
      "event: values", "data: still not json", ""] (by decide)⟩
